import Mathlib

/-!
Verification of the note-identity resolution core of `notePlayer.js`.

The 88-key table generator `getNotesInfo`, the three construction entry
points `buildFromName`, `buildFromFrequency`, `buildFromKeyNb`, the
`notePlayer` constructor and the `setDuration` / `setVolume` mutators are
translated from `src/notePlayer.js` into a shallow embedding.

Modelling conventions:
* JavaScript floating-point frequencies are idealised as real numbers.
  The running accumulator `FREQ` of the source always holds
  `FREQ * (2^(1/12))^k` after `k` multiplications, so a table entry stores
  the exponent `k` (field `freqExp`) and the real value is recovered by
  `freqVal`.
* A JavaScript function that can `throw` is modelled with `Except JSError`;
  a `try/catch` block that logs and returns `null` is modelled by mapping
  the `Except` result to `Option` (`none` = `null`).
* The Web Audio context handle is opaque: `AudioCtx.provided id` is a
  caller-supplied handle, `AudioCtx.defaultWindow` is the handle produced
  by `new (window.AudioContext || window.webkitAudioContext)()` on line 33
  of the source.
* `_.random(0.5, 3, true)` (the random default duration) is modelled by an
  explicit parameter `rnd` threaded into every constructor call.
-/

/-- `DICT_KEYS` from the source: the 12 pitch classes, cycle starting at A. -/
def DICT_KEYS : List String := ["A", "A#", "B", "C", "C#", "D", "D#", "E", "F", "F#", "G", "G#"]

/-- `DICT_OCTAVES` from the source: octave indices 0..8. -/
def DICT_OCTAVES : List Nat := [0, 1, 2, 3, 4, 5, 6, 7, 8]

/-- Initial value of the running accumulator `FREQ` in `getNotesInfo`
("starting point for G#-1" in the source). -/
noncomputable def FREQ : ℝ := 25.95654359874657

/-- The factor `Math.pow(2, 1/12)` applied to `FREQ` at every step. -/
noncomputable def semitoneRatio : ℝ := (2 : ℝ) ^ ((1 : ℝ) / 12)

/-- Real value of the `FREQ` accumulator after `n` multiplications by
`Math.pow(2, 1/12)`; the `freq` field of the table entry created at step
`n` holds exactly this value. -/
noncomputable def freqVal (n : Nat) : ℝ := FREQ * semitoneRatio ^ n

/-- A table entry produced by `getNotesInfo`: the source object
`{keynb, freq, name}`.  The float `freq` is represented by its exponent
`freqExp` (see `freqVal`). -/
structure KeyEntry where
  keynb : Nat
  freqExp : Nat
  name : String
deriving DecidableEq, Repr, Inhabited

/-- Body of the inner `map` of `getNotesInfo`: `KEYNB++`,
`FREQ = FREQ * Math.pow(2, 1/12)` (tracked as `FREQexp + 1`), and the
entry `{keynb: KEYNB, freq: FREQ, name: v2 + v}`. -/
def noteStep (KEYNB FREQexp : Nat) (v : Nat) (v2 : String) : (Nat × Nat) × KeyEntry :=
  ((KEYNB + 1, FREQexp + 1),
   { keynb := KEYNB + 1, freqExp := FREQexp + 1, name := v2 ++ toString v })

/-- The inner `_(DICT_KEYS).map(...)` of `getNotesInfo`, threading the two
mutable accumulators `KEYNB` and `FREQ`. -/
def genOctave (st : Nat × Nat) (v : Nat) : (Nat × Nat) × List KeyEntry :=
  DICT_KEYS.foldl
    (fun acc v2 =>
      let r := noteStep acc.1.1 acc.1.2 v v2
      (r.1, acc.2 ++ [r.2]))
    (st, [])

/-- The outer `_(DICT_OCTAVES).map(...)` of `getNotesInfo`, starting from
`KEYNB = 0` and the anchor frequency (exponent 0). -/
def genAll : (Nat × Nat) × List (List KeyEntry) :=
  DICT_OCTAVES.foldl
    (fun acc v =>
      let r := genOctave acc.1 v
      (r.1, acc.2 ++ [r.2]))
    ((0, 0), [])

/-- lodash `_.dropRightWhile(list, (e, i) => p e i)`: drop elements from the
end of the list while the predicate (receiving the element and its index in
the original list) is truthy. -/
def dropRightWhileIdx (p : KeyEntry → Nat → Bool) (l : List KeyEntry) : List KeyEntry :=
  ((l.enum.reverse.dropWhile (fun ei => p ei.2 ei.1)).reverse).map (fun ei => ei.2)

/-- `notePlayer.getNotesInfo` from the source: octave-major, pitch-class
minor generation, then `.dropRightWhile((e, i) => i >= 88)`. -/
def getNotesInfo : List KeyEntry :=
  dropRightWhileIdx (fun _ i => decide (88 ≤ i)) genAll.2.flatten

/-- Opaque Web Audio context handle.  `defaultWindow` is the context the
`notePlayer` constructor creates itself on line 33 when
`obj.audioContext === void 0`. -/
inductive AudioCtx where
  | provided (id : Nat)
  | defaultWindow
deriving DecidableEq, Repr

/-- `audioContext.destination` of a context. -/
structure DestNode where
  ctx : AudioCtx
deriving DecidableEq, Repr

/-- The `notePlayer` instance: properties set by the constructor. -/
structure NotePlayer where
  pianoKeyNb : Nat
  frequency : ℝ
  octave : String
  name : String
  duration : ℝ
  volume : ℝ
  audioContext : AudioCtx
  destinationNode : DestNode

/-- The argument object of the `notePlayer` constructor (a table entry with
an `audioContext` field possibly set to `undefined`). -/
structure CtorObj where
  keynb : Nat
  freqExp : Nat
  name : String
  audioContext : Option AudioCtx

/-- The `notePlayer(obj)` constructor (source lines 22-40), for the inputs
reachable from the three build functions (a genuine table entry, on which
the body does not throw): `octave = obj.name.substr(-1,1)` (the last
character of the name, a string), `duration = _.random(0.5,3,true)`
(modelled by the parameter `rnd`), `volume = 1`, and
`audioContext = (obj.audioContext === void 0) ? new (window.AudioContext)()
: obj.audioContext`. -/
noncomputable def notePlayer (obj : CtorObj) (rnd : ℝ) : NotePlayer :=
  let ac := match obj.audioContext with
    | none => AudioCtx.defaultWindow
    | some a => a
  { pianoKeyNb := obj.keynb
    frequency := freqVal obj.freqExp
    octave := obj.name.takeRight 1
    name := obj.name
    duration := rnd
    volume := 1
    audioContext := ac
    destinationNode := { ctx := ac } }

/-- The values thrown by the source: the string
`"Invalid note name: " + noteName`, the string
`"Invalid frequency (out of range): " + noteFreq`, and the `TypeError`
raised by `n.audioContext = audioContext` when `n` is `undefined`. -/
inductive JSError where
  | invalidNoteName (noteName : String)
  | invalidFrequency
  | typeError
deriving DecidableEq, Repr

/-- Body of `notePlayer.buildFromName` before its `catch`: find the entry
whose `name` equals `noteName`, throw `"Invalid note name"` if absent, else
set `n.audioContext = audioContext` and construct a `notePlayer`. -/
noncomputable def buildFromNameTry (noteName : String) (rnd : ℝ)
    (audioContext : Option AudioCtx) : Except JSError NotePlayer :=
  match getNotesInfo.find? (fun e => e.name == noteName) with
  | none => Except.error (JSError.invalidNoteName noteName)
  | some n => Except.ok (notePlayer ⟨n.keynb, n.freqExp, n.name, audioContext⟩ rnd)

/-- `notePlayer.buildFromName` (source lines 50-64): the `catch` block logs
and returns `null`, modelled as `none`. -/
noncomputable def buildFromName (noteName : String) (rnd : ℝ)
    (audioContext : Option AudioCtx) : Option NotePlayer :=
  (buildFromNameTry noteName rnd audioContext).toOption

/-- `notePlayer.buildFromKeyNb` (source lines 101-107).  There is no
`try/catch` here: when `find` returns `undefined`, the assignment
`n.audioContext = audioContext` throws a `TypeError` that propagates to
the caller, hence the `Except` result type. -/
noncomputable def buildFromKeyNb (noteKeyNb : Int) (rnd : ℝ)
    (audioContext : Option AudioCtx) : Except JSError NotePlayer :=
  match getNotesInfo.find? (fun e => (e.keynb : Int) == noteKeyNb) with
  | none => Except.error JSError.typeError
  | some n => Except.ok (notePlayer ⟨n.keynb, n.freqExp, n.name, audioContext⟩ rnd)

/-- The callback of `list.reduce` in `buildFromFrequency`:
`(prev, curr) => Math.abs(curr.freq - noteFreq) < Math.abs(prev.freq - noteFreq) ? curr : prev`. -/
noncomputable def sel (noteFreq : ℝ) (prev curr : KeyEntry) : KeyEntry :=
  if |freqVal curr.freqExp - noteFreq| < |freqVal prev.freqExp - noteFreq| then curr else prev

/-- Body of `notePlayer.buildFromFrequency` before its `catch` (source
lines 73-91): throw `"Invalid frequency (out of range)"` when `noteFreq` is
strictly below `list[0].freq` or strictly above `list[list.length-1].freq`;
otherwise take the closest entry (JavaScript `reduce` with no seed: the
first element is the seed and the rest is folded) and delegate to
`buildFromName` on its name. -/
noncomputable def buildFromFrequencyTry (noteFreq : ℝ) (rnd : ℝ)
    (audioContext : Option AudioCtx) : Except JSError (Option NotePlayer) :=
  if noteFreq < freqVal getNotesInfo.headI.freqExp ∨
      freqVal getNotesInfo.getLast!.freqExp < noteFreq then
    Except.error JSError.invalidFrequency
  else
    Except.ok (buildFromName
      (getNotesInfo.tail.foldl (sel noteFreq) getNotesInfo.headI).name rnd audioContext)

/-- `notePlayer.buildFromFrequency` with its `catch` block: an inner throw
is logged and `null` is returned. -/
noncomputable def buildFromFrequency (noteFreq : ℝ) (rnd : ℝ)
    (audioContext : Option AudioCtx) : Option NotePlayer :=
  match buildFromFrequencyTry noteFreq rnd audioContext with
  | Except.error _ => none
  | Except.ok r => r

/-- `notePlayer.prototype.setDuration` (source lines 200-202):
`this.duration = (d === void 0) ? this.duration : d`. -/
noncomputable def NotePlayer.setDuration (self : NotePlayer) (d : Option ℝ) : NotePlayer :=
  { self with duration := match d with | none => self.duration | some x => x }

/-- `notePlayer.prototype.setVolume` (source lines 210-212):
`this.volume = (v === void 0) ? this.volume : v`. -/
noncomputable def NotePlayer.setVolume (self : NotePlayer) (v : Option ℝ) : NotePlayer :=
  { self with volume := match v with | none => self.volume | some x => x }

set_option maxRecDepth 100000

/-! ### Decidable facts about the generated table -/

/-- The table has 88 entries. -/
theorem getNotesInfo_length : getNotesInfo.length = 88 := by decide

/-- The first table entry is A0 with key number 1. -/
theorem getNotesInfo_headI : getNotesInfo.headI = ⟨1, 1, ("A0")⟩ := by decide

/-- The last table entry is key number 88, named "C7" by the generator. -/
theorem getNotesInfo_getLast : getNotesInfo.getLast! = ⟨88, 88, ("C7")⟩ := by decide

/-- The table is its head followed by its tail (it is nonempty). -/
theorem getNotesInfo_cons : getNotesInfo = getNotesInfo.headI :: getNotesInfo.tail := by decide

/-- The names of the 88 entries are pairwise distinct. -/
theorem getNotesInfo_names_nodup : (getNotesInfo.map (fun e => e.name)).Nodup := by decide

/-- The frequency exponents of the 88 entries are pairwise distinct. -/
theorem getNotesInfo_freqExp_nodup : (getNotesInfo.map (fun e => e.freqExp)).Nodup := by decide

/-- The key numbers of the 88 entries are pairwise distinct. -/
theorem getNotesInfo_keynb_nodup : (getNotesInfo.map (fun e => e.keynb)).Nodup := by decide

/-- Every entry's frequency exponent lies between 1 and 88. -/
theorem getNotesInfo_freqExp_bounds : ∀ e ∈ getNotesInfo, 1 ≤ e.freqExp ∧ e.freqExp ≤ 88 := by
  decide

/-- The entry named "A4" is key number 49 at frequency exponent 49. -/
theorem getNotesInfo_find_A4 :
    getNotesInfo.find? (fun e => e.name == ("A4")) = some ⟨49, 49, ("A4")⟩ := by decide

/-- Frequency exponents grow strictly along the table. -/
theorem getNotesInfo_freqExp_pairwise :
    getNotesInfo.Pairwise (fun a b => a.freqExp < b.freqExp) := by decide

/-! ### Real-number facts about the equal-temperament frequencies -/

theorem semitoneRatio_pos : 0 < semitoneRatio := by
  unfold semitoneRatio
  exact Real.rpow_pos_of_pos (by norm_num) _

/-- Twelve semitone steps double the frequency. -/
theorem semitoneRatio_pow_twelve : semitoneRatio ^ (12 : Nat) = 2 := by
  unfold semitoneRatio
  rw [← Real.rpow_natCast ((2 : ℝ) ^ ((1 : ℝ) / 12)) 12, ← Real.rpow_mul (by norm_num : (0:ℝ) ≤ 2)]
  norm_num

/-- Rational lower bound on the semitone ratio. -/
theorem semitoneRatio_gt : (1.05946309 : ℝ) < semitoneRatio := by
  by_contra h
  push_neg at h
  have h2 : semitoneRatio ^ (12 : Nat) ≤ (1.05946309 : ℝ) ^ (12 : Nat) :=
    pow_le_pow_left₀ (le_of_lt semitoneRatio_pos) h 12
  rw [semitoneRatio_pow_twelve] at h2
  norm_num at h2

/-- Rational upper bound on the semitone ratio. -/
theorem semitoneRatio_lt : semitoneRatio < (1.05946310 : ℝ) := by
  by_contra h
  push_neg at h
  have h2 : (1.05946310 : ℝ) ^ (12 : Nat) ≤ semitoneRatio ^ (12 : Nat) :=
    pow_le_pow_left₀ (by norm_num) h 12
  rw [semitoneRatio_pow_twelve] at h2
  norm_num at h2

theorem one_lt_semitoneRatio : 1 < semitoneRatio :=
  lt_trans (by norm_num) semitoneRatio_gt

theorem FREQ_pos : 0 < FREQ := by unfold FREQ; norm_num

theorem freqVal_pos (n : Nat) : 0 < freqVal n := by
  unfold freqVal
  exact mul_pos FREQ_pos (pow_pos semitoneRatio_pos n)

theorem freqVal_strictMono {m n : Nat} (h : m < n) : freqVal m < freqVal n := by
  unfold freqVal
  exact mul_lt_mul_of_pos_left (pow_lt_pow_right₀ one_lt_semitoneRatio h) FREQ_pos

theorem freqVal_mono {m n : Nat} (h : m ≤ n) : freqVal m ≤ freqVal n := by
  rcases lt_or_eq_of_le h with h1 | h1
  · exact le_of_lt (freqVal_strictMono h1)
  · rw [h1]

theorem freqVal_inj {m n : Nat} (h : freqVal m = freqVal n) : m = n := by
  by_contra hne
  rcases Nat.lt_or_ge m n with h1 | h1
  · exact absurd h (ne_of_lt (freqVal_strictMono h1))
  · rcases Nat.lt_or_ge n m with h2 | h2
    · exact absurd h.symm (ne_of_lt (freqVal_strictMono h2))
    · exact hne (Nat.le_antisymm h2 h1)

/-- 20 Hz lies strictly below the first table frequency (about 27.5 Hz). -/
theorem twenty_lt_freqVal_one : (20 : ℝ) < freqVal 1 := by
  have h := one_lt_semitoneRatio
  unfold freqVal FREQ
  rw [pow_one]
  nlinarith

/-- 5000 Hz lies strictly above the last table frequency (about 4186 Hz). -/
theorem freqVal_88_lt_5000 : freqVal 88 < 5000 := by
  have hr : semitoneRatio ^ (4 : Nat) < 1.26 := by
    have h1 : semitoneRatio ^ (4 : Nat) < (1.05946310 : ℝ) ^ (4 : Nat) :=
      pow_lt_pow_left₀ semitoneRatio_lt (le_of_lt semitoneRatio_pos) (by norm_num)
    calc semitoneRatio ^ (4 : Nat) < (1.05946310 : ℝ) ^ (4 : Nat) := h1
      _ < 1.26 := by norm_num
  have h88 : freqVal 88 = FREQ * (128 * semitoneRatio ^ (4 : Nat)) := by
    unfold freqVal
    rw [show (88 : Nat) = 12 * 7 + 4 from rfl, pow_add, pow_mul, semitoneRatio_pow_twelve]
    norm_num
  rw [h88]
  unfold FREQ
  nlinarith [pow_pos semitoneRatio_pos 4]

/-- Key 49 (the entry named "A4") sits within one part per million of 440 Hz. -/
theorem freqVal_49_near_440 : |freqVal 49 - 440| ≤ 440 * (1 / 1000000) := by
  have h49 : freqVal 49 = FREQ * 16 * semitoneRatio := by
    unfold freqVal
    rw [show (49 : Nat) = 12 * 4 + 1 from rfl, pow_add, pow_mul, semitoneRatio_pow_twelve]
    norm_num
    ring
  rw [h49, abs_le]
  unfold FREQ
  constructor
  · nlinarith [semitoneRatio_gt]
  · nlinarith [semitoneRatio_lt]

/-! ### List lemmas for the lookup and closest-entry scans -/

/-- `find?` on a name-distinct list locates a member by its own name. -/
theorem find?_name_eq {l : List KeyEntry} (hn : (l.map (fun e => e.name)).Nodup)
    {e : KeyEntry} (he : e ∈ l) : l.find? (fun x => x.name == e.name) = some e := by
  induction l with
  | nil => cases he
  | cons h t ih =>
    rw [List.map_cons, List.nodup_cons] at hn
    rcases List.mem_cons.mp he with rfl | ht
    · rw [List.find?_cons_of_pos _ (by simp)]
    · have hne : (h.name == e.name) = false := by
        apply beq_eq_false_iff_ne.mpr
        intro hc
        exact hn.1 (hc ▸ List.mem_map_of_mem (fun e => e.name) ht)
      rw [List.find?_cons_of_neg _ (by simp [hne])]
      exact ih hn.2 ht

/-- `find?` on a key-number-distinct list locates a member by its own key
number (compared as JavaScript numbers, here `Int`). -/
theorem find?_keynb_eq {l : List KeyEntry} (hn : (l.map (fun e => e.keynb)).Nodup)
    {e : KeyEntry} (he : e ∈ l) :
    l.find? (fun x => (x.keynb : Int) == (e.keynb : Int)) = some e := by
  induction l with
  | nil => cases he
  | cons h t ih =>
    rw [List.map_cons, List.nodup_cons] at hn
    rcases List.mem_cons.mp he with rfl | ht
    · rw [List.find?_cons_of_pos _ (by simp)]
    · have hne : h.keynb ≠ e.keynb := by
        intro hc
        exact hn.1 (hc ▸ List.mem_map_of_mem (fun e => e.keynb) ht)
      rw [List.find?_cons_of_neg _ (by simp [hne])]
      exact ih hn.2 ht

/-- The `reduce` fold returns its seed or one of the folded elements. -/
theorem foldl_sel_mem (x : ℝ) (a : KeyEntry) (l : List KeyEntry) :
    l.foldl (sel x) a = a ∨ l.foldl (sel x) a ∈ l := by
  induction l generalizing a with
  | nil => exact Or.inl rfl
  | cons h t ih =>
    rw [List.foldl_cons]
    rcases ih (sel x a h) with h1 | h1
    · rw [h1]
      unfold sel
      split
      · exact Or.inr (List.mem_cons_self h t)
      · exact Or.inl rfl
    · exact Or.inr (List.mem_cons_of_mem h h1)

/-- The `reduce` fold minimises the absolute distance to `x` over the seed
and all folded elements. -/
theorem foldl_sel_min (x : ℝ) (a : KeyEntry) (l : List KeyEntry) :
    |freqVal (l.foldl (sel x) a).freqExp - x| ≤ |freqVal a.freqExp - x| ∧
    ∀ c ∈ l, |freqVal (l.foldl (sel x) a).freqExp - x| ≤ |freqVal c.freqExp - x| := by
  induction l generalizing a with
  | nil => exact ⟨le_refl _, fun c hc => absurd hc (List.not_mem_nil c)⟩
  | cons h t ih =>
    rw [List.foldl_cons]
    have hsel : |freqVal (sel x a h).freqExp - x| ≤ |freqVal a.freqExp - x| ∧
        |freqVal (sel x a h).freqExp - x| ≤ |freqVal h.freqExp - x| := by
      unfold sel
      split
      · next hlt => exact ⟨le_of_lt hlt, le_refl _⟩
      · next hge => exact ⟨le_refl _, le_of_not_lt hge⟩
    obtain ⟨ih1, ih2⟩ := ih (sel x a h)
    refine ⟨le_trans ih1 hsel.1, ?_⟩
    intro c hc
    rcases List.mem_cons.mp hc with rfl | hct
    · exact le_trans ih1 hsel.2
    · exact ih2 c hct

/-- Every table entry's name ends in a single digit between 0 and 8, and
that digit is its last character. -/
theorem octave_digit_all : ∀ e ∈ getNotesInfo, ∃ d, d ≤ 8 ∧ e.name.takeRight 1 = toString d := by
  have h : getNotesInfo.all
      (fun e => (List.range 9).any (fun d => e.name.takeRight 1 == toString d)) = true := by
    decide
  intro e he
  have h2 := List.all_eq_true.mp h e he
  obtain ⟨d, hd, he2⟩ := List.any_eq_true.mp h2
  have hd9 := List.mem_range.mp hd
  exact ⟨d, by omega, eq_of_beq he2⟩

/-! ### Claim theorems -/

/-- Claim C1, counterexample: `buildFromKeyNb(88)` yields a Note whose
name is "C7", not "C8" as the claim states (the generator advances the
octave digit at every A, so key 88 falls in octave cycle 7). -/
theorem buildFromKeyNb_88_name_ne_C8 :
    (buildFromKeyNb 88 1 none).toOption.map (fun n => n.name) = some ("C7") ∧
    ("C7" : String) ≠ ("C8") :=
  ⟨rfl, by decide⟩

/-- Claim C1, amended: resolving by key number at the table's ends yields
name "A0" for key 1 and name "C7" for key 88. -/
theorem buildFromKeyNb_1_and_88_names (rnd : ℝ) (ac : Option AudioCtx) :
    (buildFromKeyNb 1 rnd ac).toOption.map (fun n => n.name) = some ("A0") ∧
    (buildFromKeyNb 88 rnd ac).toOption.map (fun n => n.name) = some ("C7") :=
  ⟨rfl, rfl⟩

/-- Claim C2: the generated table has exactly 88 entries, its `keynb`
values are exactly 1..88 in ascending order with no gaps or duplicates,
and its frequencies are strictly increasing along the table. -/
theorem getNotesInfo_88_keys_strictly_increasing :
    getNotesInfo.length = 88 ∧
    getNotesInfo.map (fun e => e.keynb) = List.range' 1 88 ∧
    (getNotesInfo.map (fun e => freqVal e.freqExp)).Pairwise (fun a b => a < b) := by
  refine ⟨getNotesInfo_length, by decide, ?_⟩
  rw [List.pairwise_map]
  exact getNotesInfo_freqExp_pairwise.imp (fun h => freqVal_strictMono h)

/-- Claim C3: `buildFromName("A4")` succeeds with a Note whose key number
is exactly 49 and whose frequency is within relative error 1e-6 of 440 Hz. -/
theorem buildFromName_A4_key49_440Hz (rnd : ℝ) (ac : Option AudioCtx) :
    ∃ n, buildFromName ("A4") rnd ac = some n ∧ n.pianoKeyNb = 49 ∧
      |n.frequency - 440| ≤ 440 * (1 / 1000000) := by
  refine ⟨notePlayer ⟨49, 49, ("A4"), ac⟩ rnd, ?_, rfl, ?_⟩
  · unfold buildFromName buildFromNameTry
    rw [getNotesInfo_find_A4]
    rfl
  · exact freqVal_49_near_440

/-- Claim C4: for every table index, `buildFromFrequency` applied to that
entry's exact frequency succeeds and returns a Note with that entry's key
number. -/
theorem buildFromFrequency_roundtrip (i : Fin getNotesInfo.length) (rnd : ℝ)
    (ac : Option AudioCtx) :
    ∃ n, buildFromFrequency (freqVal (getNotesInfo.get i).freqExp) rnd ac = some n ∧
      n.pianoKeyNb = (getNotesInfo.get i).keynb := by
  have he : getNotesInfo.get i ∈ getNotesInfo := List.get_mem getNotesInfo i.1 i.2
  set e := getNotesInfo.get i with he_def
  set x := freqVal e.freqExp with hx_def
  have hb := getNotesInfo_freqExp_bounds e he
  have hcond : ¬(x < freqVal getNotesInfo.headI.freqExp ∨
      freqVal getNotesInfo.getLast!.freqExp < x) := by
    push_neg
    constructor
    · rw [getNotesInfo_headI]; exact freqVal_mono hb.1
    · rw [getNotesInfo_getLast]; exact freqVal_mono hb.2
  have hmem : getNotesInfo.tail.foldl (sel x) getNotesInfo.headI ∈ getNotesInfo := by
    rcases foldl_sel_mem x getNotesInfo.headI getNotesInfo.tail with h1 | h1
    · rw [h1, getNotesInfo_cons]; exact List.mem_cons_self _ _
    · rw [getNotesInfo_cons]; exact List.mem_cons_of_mem _ h1
  have hmin := foldl_sel_min x getNotesInfo.headI getNotesInfo.tail
  have hdist : |freqVal (getNotesInfo.tail.foldl (sel x) getNotesInfo.headI).freqExp - x| ≤ 0 := by
    have he2 : e ∈ getNotesInfo.headI :: getNotesInfo.tail := getNotesInfo_cons ▸ he
    rcases List.mem_cons.mp he2 with h1 | h1
    · calc |freqVal (getNotesInfo.tail.foldl (sel x) getNotesInfo.headI).freqExp - x|
          ≤ |freqVal getNotesInfo.headI.freqExp - x| := hmin.1
        _ = 0 := by rw [← h1, hx_def, sub_self, abs_zero]
    · calc |freqVal (getNotesInfo.tail.foldl (sel x) getNotesInfo.headI).freqExp - x|
          ≤ |freqVal e.freqExp - x| := hmin.2 e h1
        _ = 0 := by rw [hx_def, sub_self, abs_zero]
  have hclosest : getNotesInfo.tail.foldl (sel x) getNotesInfo.headI = e := by
    have heq : freqVal (getNotesInfo.tail.foldl (sel x) getNotesInfo.headI).freqExp =
        freqVal e.freqExp := by
      have h0 : |freqVal (getNotesInfo.tail.foldl (sel x) getNotesInfo.headI).freqExp - x| = 0 :=
        le_antisymm hdist (abs_nonneg _)
      have h1 := abs_eq_zero.mp h0
      have h2 := sub_eq_zero.mp h1
      rw [h2, hx_def]
    exact List.inj_on_of_nodup_map getNotesInfo_freqExp_nodup hmem he (freqVal_inj heq)
  refine ⟨notePlayer ⟨e.keynb, e.freqExp, e.name, ac⟩ rnd, ?_, rfl⟩
  unfold buildFromFrequency buildFromFrequencyTry
  rw [if_neg hcond, hclosest]
  unfold buildFromName buildFromNameTry
  rw [find?_name_eq getNotesInfo_names_nodup he]
  rfl

/-- Claim C5: resolution failures always surface to the caller (as the
`null` return of the catching builders or as the exception escaping
`buildFromKeyNb`), and a returned Note is never partial: it always carries
the name, key number and strictly positive frequency of a genuine table
entry. -/
theorem resolution_failures_reported :
    (∀ (noteName : String) (rnd : ℝ) (ac : Option AudioCtx),
      (∀ e ∈ getNotesInfo, e.name ≠ noteName) → buildFromName noteName rnd ac = none) ∧
    (∀ (noteName : String) (rnd : ℝ) (ac : Option AudioCtx) (n : NotePlayer),
      buildFromName noteName rnd ac = some n →
        ∃ e ∈ getNotesInfo, n.name = e.name ∧ n.pianoKeyNb = e.keynb ∧
          n.frequency = freqVal e.freqExp ∧ 0 < n.frequency) ∧
    (∀ (noteKeyNb : Int) (rnd : ℝ) (ac : Option AudioCtx),
      (∀ e ∈ getNotesInfo, (e.keynb : Int) ≠ noteKeyNb) →
        buildFromKeyNb noteKeyNb rnd ac = Except.error JSError.typeError) ∧
    (∀ (noteKeyNb : Int) (rnd : ℝ) (ac : Option AudioCtx) (n : NotePlayer),
      buildFromKeyNb noteKeyNb rnd ac = Except.ok n → 0 < n.frequency) ∧
    (∀ (noteFreq rnd : ℝ) (ac : Option AudioCtx) (n : NotePlayer),
      buildFromFrequency noteFreq rnd ac = some n → 0 < n.frequency) := by
  have hname_ok : ∀ (noteName : String) (rnd : ℝ) (ac : Option AudioCtx) (n : NotePlayer),
      buildFromName noteName rnd ac = some n →
        ∃ e ∈ getNotesInfo, n.name = e.name ∧ n.pianoKeyNb = e.keynb ∧
          n.frequency = freqVal e.freqExp ∧ 0 < n.frequency := by
    intro noteName rnd ac n h
    unfold buildFromName buildFromNameTry at h
    cases hfind : getNotesInfo.find? (fun e => e.name == noteName) with
    | none => rw [hfind] at h; cases h
    | some m =>
      rw [hfind] at h
      have hm : m ∈ getNotesInfo := List.mem_of_find?_eq_some hfind
      have hn : n = notePlayer ⟨m.keynb, m.freqExp, m.name, ac⟩ rnd := by
        simpa [Except.toOption] using h.symm
      exact ⟨m, hm, by rw [hn]; rfl, by rw [hn]; rfl, by rw [hn]; rfl,
        by rw [hn]; exact freqVal_pos _⟩
  refine ⟨?_, hname_ok, ?_, ?_, ?_⟩
  · intro noteName rnd ac hall
    unfold buildFromName buildFromNameTry
    rw [List.find?_eq_none.mpr (by intro x hx; simpa using hall x hx)]
    rfl
  · intro noteKeyNb rnd ac hall
    unfold buildFromKeyNb
    rw [List.find?_eq_none.mpr (by intro x hx; simpa using hall x hx)]
  · intro noteKeyNb rnd ac n h
    unfold buildFromKeyNb at h
    cases hfind : getNotesInfo.find? (fun e => (e.keynb : Int) == noteKeyNb) with
    | none => rw [hfind] at h; cases h
    | some m =>
      rw [hfind] at h
      have hn : n = notePlayer ⟨m.keynb, m.freqExp, m.name, ac⟩ rnd := by
        cases h; rfl
      rw [hn]
      exact freqVal_pos _
  · intro noteFreq rnd ac n h
    unfold buildFromFrequency at h
    cases hTry : buildFromFrequencyTry noteFreq rnd ac with
    | error err => rw [hTry] at h; cases h
    | ok r =>
      rw [hTry] at h
      unfold buildFromFrequencyTry at hTry
      by_cases hc : (noteFreq < freqVal getNotesInfo.headI.freqExp ∨
          freqVal getNotesInfo.getLast!.freqExp < noteFreq)
      · rw [if_pos hc] at hTry; cases hTry
      · rw [if_neg hc] at hTry
        have hr : r = buildFromName
            (getNotesInfo.tail.foldl (sel noteFreq) getNotesInfo.headI).name rnd ac := by
          cases hTry; rfl
        rw [hr] at h
        obtain ⟨e, _, _, _, _, hpos⟩ := hname_ok _ _ _ _ h
        exact hpos

/-- Claim C5, witness: the unknown name "Z9" resolves to `null`, and the
unmatched key 89 surfaces a thrown error. -/
theorem resolution_failures_reported_witness :
    buildFromName ("Z9") 1 none = none ∧
    buildFromKeyNb 89 1 none = Except.error JSError.typeError :=
  ⟨resolution_failures_reported.1 ("Z9") 1 none (by decide),
   resolution_failures_reported.2.2.1 89 1 none (by decide)⟩

/-- Claim C6: evaluation at the failing inputs.  `buildFromKeyNb` on an
unmatched key number does not fail with a NotFoundError in the shape of
the other builders: it lets a `TypeError` (from assigning a property of
`undefined`) escape to the caller, while `buildFromName` on an unmatched
name catches its throw and returns `null`. -/
theorem buildFromKeyNb_unmatched_typeError :
    buildFromKeyNb 89 1 none = Except.error JSError.typeError ∧
    buildFromKeyNb 0 1 none = Except.error JSError.typeError ∧
    buildFromName ("Z9") 1 none = none :=
  ⟨rfl, rfl, rfl⟩

/-- Claim C7: `buildFromFrequency` throws the out-of-range error exactly
when the requested frequency is strictly below the first table frequency
or strictly above the last one; the bounds themselves are in range; 20 Hz
and 5000 Hz both fail with the out-of-range error (surfaced as `null`
after the internal catch). -/
theorem buildFromFrequency_out_of_range_spec :
    (∀ (f rnd : ℝ) (ac : Option AudioCtx),
      buildFromFrequencyTry f rnd ac = Except.error JSError.invalidFrequency ↔
        (f < freqVal getNotesInfo.headI.freqExp ∨ freqVal getNotesInfo.getLast!.freqExp < f)) ∧
    (∀ (rnd : ℝ) (ac : Option AudioCtx),
      buildFromFrequencyTry (freqVal getNotesInfo.headI.freqExp) rnd ac ≠
        Except.error JSError.invalidFrequency) ∧
    (∀ (rnd : ℝ) (ac : Option AudioCtx),
      buildFromFrequencyTry (freqVal getNotesInfo.getLast!.freqExp) rnd ac ≠
        Except.error JSError.invalidFrequency) ∧
    (∀ (rnd : ℝ) (ac : Option AudioCtx),
      buildFromFrequencyTry 20 rnd ac = Except.error JSError.invalidFrequency ∧
      buildFromFrequency 20 rnd ac = none) ∧
    (∀ (rnd : ℝ) (ac : Option AudioCtx),
      buildFromFrequencyTry 5000 rnd ac = Except.error JSError.invalidFrequency ∧
      buildFromFrequency 5000 rnd ac = none) := by
  have hiff : ∀ (f rnd : ℝ) (ac : Option AudioCtx),
      buildFromFrequencyTry f rnd ac = Except.error JSError.invalidFrequency ↔
        (f < freqVal getNotesInfo.headI.freqExp ∨ freqVal getNotesInfo.getLast!.freqExp < f) := by
    intro f rnd ac
    unfold buildFromFrequencyTry
    by_cases hc : (f < freqVal getNotesInfo.headI.freqExp ∨
        freqVal getNotesInfo.getLast!.freqExp < f)
    · rw [if_pos hc]
      simp [hc]
    · rw [if_neg hc]
      constructor
      · intro h
        exact absurd h (by simp)
      · intro h
        exact absurd h hc
  have h20 : ∀ (rnd : ℝ) (ac : Option AudioCtx),
      buildFromFrequencyTry 20 rnd ac = Except.error JSError.invalidFrequency := by
    intro rnd ac
    rw [hiff]
    left
    rw [getNotesInfo_headI]
    exact twenty_lt_freqVal_one
  have h5000 : ∀ (rnd : ℝ) (ac : Option AudioCtx),
      buildFromFrequencyTry 5000 rnd ac = Except.error JSError.invalidFrequency := by
    intro rnd ac
    rw [hiff]
    right
    rw [getNotesInfo_getLast]
    exact freqVal_88_lt_5000
  refine ⟨hiff, ?_, ?_, ?_, ?_⟩
  · intro rnd ac h
    rw [hiff] at h
    rcases h with h | h
    · exact lt_irrefl _ h
    · rw [getNotesInfo_headI, getNotesInfo_getLast] at h
      exact absurd h (not_lt.mpr (freqVal_mono (by norm_num)))
  · intro rnd ac h
    rw [hiff] at h
    rcases h with h | h
    · rw [getNotesInfo_headI, getNotesInfo_getLast] at h
      exact absurd h (not_lt.mpr (freqVal_mono (by norm_num)))
    · exact lt_irrefl _ h
  · intro rnd ac
    refine ⟨h20 rnd ac, ?_⟩
    unfold buildFromFrequency
    rw [h20 rnd ac]
  · intro rnd ac
    refine ⟨h5000 rnd ac, ?_⟩
    unfold buildFromFrequency
    rw [h5000 rnd ac]

/-- Claim C7, witness: the two sample frequencies evaluated concretely. -/
theorem buildFromFrequency_out_of_range_witness :
    buildFromFrequencyTry 20 1 none = Except.error JSError.invalidFrequency ∧
    buildFromFrequency 5000 1 none = none :=
  ⟨(buildFromFrequency_out_of_range_spec.2.2.2.1 1 none).1,
   (buildFromFrequency_out_of_range_spec.2.2.2.2 1 none).2⟩

/-- Claim C8, counterexample: the Note resolved for key 1 (name "A0") has
octave "0" — the digit 0 is outside the claimed range 1..8 (and the field
is the last character of the name as a string, not an integer). -/
theorem octave_of_A0_is_zero :
    (buildFromKeyNb 1 1 none).toOption.map (fun n => n.octave) = some ("0") ∧
    ("0" : String) = toString (0 : Nat) ∧ ¬(1 ≤ (0 : Nat)) :=
  ⟨rfl, by decide, by decide⟩

/-- Claim C8, amended: every resolved Note's octave field is the
one-character string holding the last character of its name, and that
character is a digit between 0 and 8. -/
theorem octave_last_char_digit_le_8 (i : Fin getNotesInfo.length) (rnd : ℝ)
    (ac : Option AudioCtx) :
    ∃ n, buildFromKeyNb ((getNotesInfo.get i).keynb : Int) rnd ac = Except.ok n ∧
      n.octave = n.name.takeRight 1 ∧ ∃ d, d ≤ 8 ∧ n.octave = toString d := by
  have he : getNotesInfo.get i ∈ getNotesInfo := List.get_mem getNotesInfo i.1 i.2
  refine ⟨notePlayer ⟨(getNotesInfo.get i).keynb, (getNotesInfo.get i).freqExp,
    (getNotesInfo.get i).name, ac⟩ rnd, ?_, rfl, ?_⟩
  · unfold buildFromKeyNb
    rw [find?_keynb_eq getNotesInfo_keynb_nodup he]
  · obtain ⟨d, hd, he2⟩ := octave_digit_all _ he
    exact ⟨d, hd, he2⟩

/-- Claim C9, counterexample: resolving with the output-destination handle
omitted yields a Note holding the default audio context that the
constructor itself created (line 33 of the source), contradicting the
claim that the resolver never creates or obtains a default handle. -/
theorem omitted_handle_creates_default_ctx :
    (buildFromKeyNb 49 1 none).toOption.map (fun n => n.audioContext) =
      some AudioCtx.defaultWindow ∧
    (buildFromKeyNb 49 1 (some (AudioCtx.provided 7))).toOption.map
      (fun n => n.audioContext) = some (AudioCtx.provided 7) :=
  ⟨rfl, rfl⟩

/-- Claim C9, amended: when the optional handle is omitted, the
constructor itself creates and stores the default `window.AudioContext`
(and its destination node); when a handle is provided, that handle is
stored unchanged. -/
theorem audioContext_default_or_provided (i : Fin getNotesInfo.length) (rnd : ℝ) :
    (∃ n, buildFromKeyNb ((getNotesInfo.get i).keynb : Int) rnd none = Except.ok n ∧
      n.audioContext = AudioCtx.defaultWindow ∧
      n.destinationNode = ⟨AudioCtx.defaultWindow⟩) ∧
    ∀ a : AudioCtx, ∃ n,
      buildFromKeyNb ((getNotesInfo.get i).keynb : Int) rnd (some a) = Except.ok n ∧
      n.audioContext = a := by
  have he : getNotesInfo.get i ∈ getNotesInfo := List.get_mem getNotesInfo i.1 i.2
  constructor
  · refine ⟨notePlayer ⟨(getNotesInfo.get i).keynb, (getNotesInfo.get i).freqExp,
      (getNotesInfo.get i).name, none⟩ rnd, ?_, rfl, rfl⟩
    unfold buildFromKeyNb
    rw [find?_keynb_eq getNotesInfo_keynb_nodup he]
  · intro a
    refine ⟨notePlayer ⟨(getNotesInfo.get i).keynb, (getNotesInfo.get i).freqExp,
      (getNotesInfo.get i).name, some a⟩ rnd, ?_, rfl⟩
    unfold buildFromKeyNb
    rw [find?_keynb_eq getNotesInfo_keynb_nodup he]

/-- Claim C10: `setDuration(undefined)` is the identity, `setDuration(1.5)`
sets the duration to exactly 1.5, `setVolume` obeys the same
absent-is-no-op contract without clamping or validating its value, and
each mutator changes no field but its own. -/
theorem setDuration_setVolume_contract (n : NotePlayer) (d v : ℝ) :
    n.setDuration none = n ∧
    (n.setDuration (some 1.5)).duration = 1.5 ∧
    n.setDuration (some d) = { n with duration := d } ∧
    n.setVolume none = n ∧
    n.setVolume (some v) = { n with volume := v } :=
  ⟨rfl, rfl, rfl, rfl, rfl⟩
